import Mathlib

/-!
Shallow embedding of the bamboo-forest ephemeral post board
(`app/services/redis_service.py`, `app/api/endpoints/posts.py`,
`app/core/config.py`, `app/schemas/post.py`).

The Redis store is modelled as explicit state: the `post:{id}` hashes keyed by
the post id, the absolute expiry deadline of each hash key (the per-key TTL),
and the four sorted-set indexes (`posts:active`, `posts:expiring`,
`posts:rank:views`, `posts:rank:recs`) as partial score maps.  Timestamps and
scores are natural-number seconds; the `TTL` command result is an integer
because Redis answers `-1`/`-2` for missing expiry / missing key.  Every
operation that reads the clock takes `now` explicitly; the freshly generated
uuid of `create_post` is likewise a parameter.
-/

namespace BambooForest

/-- Business-logic settings from `app/core/config.py` (`Settings`). -/
def post_default_ttl : Nat := 600

/-- `Settings.recommendation_extension_ttl` (seconds). -/
def recommendation_extension_ttl : Nat := 300

/-- `Settings.recommendation_extension_threshold`. -/
def recommendation_extension_threshold : Nat := 100

/-- `Settings.report_blind_threshold`. -/
def report_blind_threshold : Nat := 50

/-- The fields of the `post:{id}` Redis hash written by `create_post`.
`status` is kept as the literal string stored in Redis (`"active"` /
`"blinded"`), which is what `RECOMMEND_SCRIPT` compares against. -/
structure PostRec where
  content : String
  created_at_ts : Nat
  tags : List String
  views : Nat
  recommendations : Nat
  reports : Nat
  status : String
deriving Repr, DecidableEq

/-- The whole Redis keyspace used by the service.  `posts id` is the
`post:{id}` hash (`none` = key absent), `expireAt id` its absolute expiry
deadline (`none` = key has no TTL), and the four score maps are the sorted
sets, keyed by post id with `none` meaning the id is not a member. -/
structure RedisState where
  posts : String → Option PostRec
  expireAt : String → Option Nat
  active : String → Option Nat
  expiring : String → Option Nat
  rankViews : String → Option Nat
  rankRecs : String → Option Nat

/-- Point update of a partial map (one `HSET`/`ZADD`/`ZREM` effect). -/
def upd (f : String → Option α) (k : String) (v : Option α) : String → Option α :=
  fun x => if x = k then v else f x

/-- `ZADD z {id: score}`. -/
def zadd (z : String → Option Nat) (id : String) (score : Nat) : String → Option Nat :=
  upd z id (some score)

/-- `ZINCRBY z by id`: missing members start from score 0. -/
def zincrby (z : String → Option Nat) (id : String) (by_ : Nat) : String → Option Nat :=
  upd z id (some ((z id).getD 0 + by_))

/-- The `TTL key` command at time `now`: `-2` when the key is absent, `-1`
when it has no expiry, otherwise the remaining seconds. -/
def ttlCmd (s : RedisState) (id : String) (now : Nat) : Int :=
  match s.posts id with
  | none => -2
  | some _ =>
    match s.expireAt id with
    | none => -1
    | some d => (d : Int) - now

/-- The snapshot dict built by `create_post` / `get_post` and validated by
`PostResponse` (`app/schemas/post.py`). -/
structure PostSnapshot where
  id : String
  content : String
  created_at_ts : Nat
  ttl_seconds : Nat
  tags : List String
  views : Nat
  recommendations : Nat
  reports : Nat
  status : String
deriving Repr, DecidableEq

/-- The empty keyspace. -/
def emptyState : RedisState :=
  { posts := fun _ => none, expireAt := fun _ => none, active := fun _ => none,
    expiring := fun _ => none, rankViews := fun _ => none, rankRecs := fun _ => none }

/-- `RedisService.create_post`: builds the `post_data` dict, queues HSET,
EXPIRE, ZADD `posts:active` and ZADD `posts:expiring` on a `transaction=True`
pipeline — but `pipe.execute()` is a coroutine of `redis.asyncio` that is
called without `await`, so none of those queued writes ever reaches the
store.  Only the two awaited stand-alone ZADDs that initialise the ranking
sets to score 0 execute.  The function still returns the snapshot dict built
from `post_data` with `ttl_seconds` = default TTL, as if creation had
happened.  The uuid `post_id` and the clock `now` are parameters. -/
def create_post (s : RedisState) (post_id content : String) (tags : List String)
    (now : Nat) : PostSnapshot × RedisState :=
  let post_data : PostRec :=
    { content := content, created_at_ts := now, tags := tags,
      views := 0, recommendations := 0, reports := 0, status := "active" }
  let s2 : RedisState :=
    { s with
      rankViews := zadd s.rankViews post_id 0,
      rankRecs := zadd s.rankRecs post_id 0 }
  ({ id := post_id, content := post_data.content,
     created_at_ts := post_data.created_at_ts, ttl_seconds := post_default_ttl,
     tags := tags, views := post_data.views,
     recommendations := post_data.recommendations, reports := post_data.reports,
     status := post_data.status }, s2)

/-- `RedisService._increment_view_atomic`: the Lua script HINCRBYs `views`
and ZINCRBYs `posts:rank:views` by 1.  Its only caller (`get_post`) has just
checked that the key exists, so the HINCRBY-creates-a-partial-hash path on an
absent key is left as the identity. -/
def _increment_view_atomic (s : RedisState) (post_id : String) : RedisState :=
  match s.posts post_id with
  | none => s
  | some r =>
    { s with
      posts := upd s.posts post_id (some { r with views := r.views + 1 }),
      rankViews := zincrby s.rankViews post_id 1 }

/-- `RedisService.get_post`: EXISTS check (absent ⇒ `None`, no writes), then
HGETALL, then the atomic view increment, then TTL and `max(0, ttl)`, and
finally a ZADD of `posts:rank:views` with the `views` value read by the
HGETALL — i.e. the value from before the increment.  The returned snapshot
also carries that pre-increment `views`. -/
def get_post (s : RedisState) (post_id : String) (now : Nat) :
    Option PostSnapshot × RedisState :=
  match s.posts post_id with
  | none => (none, s)
  | some post_data =>
    let s1 := _increment_view_atomic s post_id
    let ttl := ttlCmd s1 post_id now
    let ttl_seconds : Nat := (max 0 ttl).toNat
    let views := post_data.views
    let s2 : RedisState := { s1 with rankViews := zadd s1.rankViews post_id views }
    (some { id := post_id, content := post_data.content,
            created_at_ts := post_data.created_at_ts, ttl_seconds := ttl_seconds,
            tags := post_data.tags, views := views,
            recommendations := post_data.recommendations,
            reports := post_data.reports, status := post_data.status }, s2)

/-- The value `RECOMMEND_SCRIPT` returns to Python: blinded posts answer the
two-element table `{-1, recommendations}`, everything else the three-element
table `{recs, current_ttl, should_extend}`. -/
inductive RecommendReply where
  | blindedReply (recommendations : Nat)
  | okReply (recs : Nat) (current_ttl : Int) (should_extend : Bool)
deriving Repr, DecidableEq

/-- `RedisService.RECOMMEND_SCRIPT` run against `post:{post_id}` at time
`now`: HGET `status` (blinded ⇒ early return, no mutation), HINCRBY
`recommendations`, `should_extend := recs % threshold == 0`, TTL read, EXPIRE
to `current_ttl + extension` when `should_extend` and the TTL is positive
(note: `posts:expiring` is not touched), then ZINCRBY `posts:rank:recs` by 1.
The script on an absent key (dead through the endpoint, which has just
checked existence) is not modelled and answers `none`. -/
def RECOMMEND_SCRIPT_run (s : RedisState) (post_id : String) (now : Nat) :
    Option (RecommendReply × RedisState) :=
  match s.posts post_id with
  | none => none
  | some r =>
    if r.status = "blinded" then
      some (.blindedReply r.recommendations, s)
    else
      let recs := r.recommendations + 1
      let s1 : RedisState :=
        { s with posts := upd s.posts post_id (some { r with recommendations := recs }) }
      let should_extend : Bool := recs % recommendation_extension_threshold == 0
      let current_ttl := ttlCmd s1 post_id now
      let newDeadline : Nat := now + (current_ttl + recommendation_extension_ttl).toNat
      let s2 : RedisState :=
        if should_extend ∧ 0 < current_ttl then
          { s1 with expireAt := upd s1.expireAt post_id (some newDeadline) }
        else s1
      let s3 : RedisState := { s2 with rankRecs := zincrby s2.rankRecs post_id 1 }
      some (.okReply recs current_ttl should_extend, s3)

/-- The dict `recommend_post` returns on its success path, mirroring
`PostRecommendResponse`. -/
structure RecommendResult where
  success : Bool
  recommendations : Nat
  ttl_seconds : Int
  message : Option String
deriving Repr, DecidableEq

/-- What a `recommend_post` call does: either it returns a result dict or the
statement `recs, current_ttl, should_extend = result` raises `ValueError`
because the script replied with a two-element table. -/
inductive RecommendOutcome where
  | ok (res : RecommendResult)
  | valueError
deriving Repr, DecidableEq

/-- The message f-string of `recommend_post` for the extension case. -/
def extensionMessage : String :=
  toString recommendation_extension_threshold ++ "번째 추천! "
    ++ toString (recommendation_extension_ttl / 60) ++ "분 연장되었습니다."

/-- `RedisService.recommend_post`: runs `RECOMMEND_SCRIPT` and unpacks the
reply into three variables.  A blinded post makes the script reply with two
elements, so the unpacking raises `ValueError` before the `recs == -1`
handler can run; otherwise the dict `{success: True, recommendations,
ttl_seconds = current_ttl (+ extension when extended), message}` is built. -/
def recommend_post (s : RedisState) (post_id : String) (now : Nat) :
    Option (RecommendOutcome × RedisState) :=
  match RECOMMEND_SCRIPT_run s post_id now with
  | none => none
  | some (.blindedReply _, s') => some (.valueError, s')
  | some (.okReply recs current_ttl should_extend, s') =>
    let message : Option String :=
      if should_extend then some extensionMessage else none
    let new_ttl : Int :=
      current_ttl + (if should_extend then (recommendation_extension_ttl : Int) else 0)
    some (.ok { success := true, recommendations := recs,
                ttl_seconds := new_ttl, message := message }, s')

/-- Projection of `recommend_post` onto the returned value. -/
def runRecommend (s : RedisState) (post_id : String) (now : Nat) :
    Option RecommendOutcome :=
  (recommend_post s post_id now).map Prod.fst

/-- `RedisService.REPORT_SCRIPT` run against `post:{post_id}`: HINCRBY
`reports`, and when the new count reaches the blind threshold, HSET
`status = 'blinded'` in the same script and answer `{reports, true}`;
otherwise `{reports, false}`.  As with the recommend script, the absent-key
path is dead through the endpoint and answers `none`. -/
def REPORT_SCRIPT_run (s : RedisState) (post_id : String) :
    Option ((Nat × Bool) × RedisState) :=
  match s.posts post_id with
  | none => none
  | some r =>
    let reports := r.reports + 1
    if report_blind_threshold ≤ reports then
      let r1 : PostRec := { r with reports := reports, status := "blinded" }
      some ((reports, true), { s with posts := upd s.posts post_id (some r1) })
    else
      some ((reports, false),
        { s with posts := upd s.posts post_id (some { r with reports := reports }) })

/-- The dict `report_post` returns, mirroring `PostReportResponse`. -/
structure ReportResult where
  success : Bool
  reports : Nat
  message : String
deriving Repr, DecidableEq

/-- The blinded-notification message f-string of `report_post`. -/
def blindedMessage : String :=
  toString report_blind_threshold ++ "번째 신고로 게시글이 블라인드되었습니다."

/-- The plain acknowledgement message of `report_post`. -/
def reportedMessage : String := "게시글이 신고되었습니다."

/-- `RedisService.report_post`: runs `REPORT_SCRIPT` and packages
`{success: True, reports, message}` with the message chosen by the blinded
flag. -/
def report_post (s : RedisState) (post_id : String) :
    Option (ReportResult × RedisState) :=
  match REPORT_SCRIPT_run s post_id with
  | none => none
  | some ((reports, is_blinded), s') =>
    some ({ success := true, reports := reports,
            message := if is_blinded then blindedMessage else reportedMessage }, s')

/-- A member of `posts:expiring` selected by
`ZRANGEBYSCORE posts:expiring 0 now` (scores are natural numbers, so the
lower bound 0 is always met). -/
def sweepCandidate (s : RedisState) (now : Nat) (id : String) : Bool :=
  match s.expiring id with
  | some sc => sc ≤ now
  | none => false

/-- `RedisService.cleanup_expired_indexes` at time `now`: ZRANGEBYSCOREs
`posts:expiring` for the candidates with score ≤ `now` (the `sweepCandidate`
set), returns early when there are none, and otherwise queues a ZREM of each
candidate on all four sorted sets in a transactional pipeline — but
`pipe.execute()` is a coroutine of `redis.asyncio` that is called without
`await`, so the queued removals are never applied and the store is left
unchanged in every case. -/
def cleanup_expired_indexes (s : RedisState) (_now : Nat) : RedisState :=
  s

/-- Outcome of an HTTP endpoint in `app/api/endpoints/posts.py`: a response
body, the 404 of the not-found guard, or the 500 produced when the service
raises an exception. -/
inductive ApiResult (α : Type) where
  | ok (value : α)
  | notFound
  | serverError
deriving Repr, DecidableEq

/-- `GET /api/v1/posts/{post_id}`: `get_post`, 404 when it returns `None`. -/
def get_post_endpoint (s : RedisState) (post_id : String) (now : Nat) :
    ApiResult PostSnapshot × RedisState :=
  match get_post s post_id now with
  | (none, s') => (.notFound, s')
  | (some p, s') => (.ok p, s')

/-- `POST /api/v1/posts/{post_id}/recommend`: existence check via the full
`get_post` read path (404 when absent), then `recommend_post`; an exception
from the service (the two-element unpack on a blinded post) is caught by the
endpoint's `except Exception` and surfaces as a 500, with whatever store
writes already happened left in place. -/
def recommend_post_endpoint (s : RedisState) (post_id : String) (now : Nat) :
    ApiResult RecommendResult × RedisState :=
  match get_post s post_id now with
  | (none, s1) => (.notFound, s1)
  | (some _, s1) =>
    match recommend_post s1 post_id now with
    | none => (.serverError, s1)
    | some (.valueError, s2) => (.serverError, s2)
    | some (.ok res, s2) => (.ok res, s2)

/-- `POST /api/v1/posts/{post_id}/report`: existence check via the full
`get_post` read path (404 when absent), then `report_post`. -/
def report_post_endpoint (s : RedisState) (post_id : String) (now : Nat) :
    ApiResult ReportResult × RedisState :=
  match get_post s post_id now with
  | (none, s1) => (.notFound, s1)
  | (some _, s1) =>
    match report_post s1 post_id with
    | none => (.serverError, s1)
    | some (res, s2) => (.ok res, s2)

/-- One request-level operation of the system, for quantifying over "any
mutation". -/
inductive Op where
  | createOp (post_id content : String) (tags : List String)
  | getOp (post_id : String)
  | recommendOp (post_id : String)
  | reportOp (post_id : String)
  | sweepOp
deriving Repr, DecidableEq

/-- The state transition of each operation (endpoint-level where an endpoint
exists, the sweeper for `sweepOp`). -/
def applyOp (s : RedisState) (now : Nat) : Op → RedisState
  | .createOp pid c tags => (create_post s pid c tags now).2
  | .getOp pid => (get_post_endpoint s pid now).2
  | .recommendOp pid => (recommend_post_endpoint s pid now).2
  | .reportOp pid => (report_post_endpoint s pid now).2
  | .sweepOp => cleanup_expired_indexes s now

/-- Side condition that a `createOp`'s uuid is fresh, which the real
`uuid.uuid4()` id generation provides. -/
def opFresh (s : RedisState) : Op → Prop
  | .createOp pid _ _ => s.posts pid = none
  | _ => True

/-! ### Basic lemmas about the store primitives -/

@[simp]
theorem upd_self (f : String → Option α) (k : String) (v : Option α) :
    upd f k v k = v := by
  simp [upd]

theorem upd_ne (f : String → Option α) {x k : String} (v : Option α) (h : x ≠ k) :
    upd f k v x = f x := by
  simp [upd, h]

/-- `TTL` only looks at key existence and the expiry deadline. -/
theorem ttlCmd_congr {s s' : RedisState} {id : String} (now : Nat)
    (hp : (s.posts id).isSome = (s'.posts id).isSome)
    (he : s.expireAt id = s'.expireAt id) :
    ttlCmd s id now = ttlCmd s' id now := by
  unfold ttlCmd
  cases h1 : s.posts id <;> cases h2 : s'.posts id <;>
    simp [h1, h2, he] at hp ⊢

/-! ### Frame lemmas: which component each operation writes -/

theorem get_post_absent {s : RedisState} {pid : String} (now : Nat)
    (hp : s.posts pid = none) : get_post s pid now = (none, s) := by
  simp [get_post, hp]

theorem get_post_present_posts {s : RedisState} {pid : String} {rp : PostRec} (now : Nat)
    (hp : s.posts pid = some rp) :
    (get_post s pid now).2.posts = upd s.posts pid (some { rp with views := rp.views + 1 }) := by
  simp [get_post, hp, _increment_view_atomic]

theorem get_post_present_expireAt {s : RedisState} {pid : String} {rp : PostRec} (now : Nat)
    (hp : s.posts pid = some rp) :
    (get_post s pid now).2.expireAt = s.expireAt := by
  simp [get_post, hp, _increment_view_atomic]

theorem recommend_post_present_posts {s : RedisState} {pid : String} {rp : PostRec} (now : Nat)
    (hp : s.posts pid = some rp) :
    (recommend_post s pid now).map (fun p => p.2.posts) =
      some (if rp.status = "blinded" then s.posts
            else upd s.posts pid (some { rp with recommendations := rp.recommendations + 1 })) := by
  by_cases hb : rp.status = "blinded"
  · simp [recommend_post, RECOMMEND_SCRIPT_run, hp, hb]
  · simp only [recommend_post, RECOMMEND_SCRIPT_run, hp, if_neg hb]
    split <;> split <;> simp [hb]

theorem report_post_present_posts {s : RedisState} {pid : String} {rp : PostRec}
    (hp : s.posts pid = some rp) :
    (report_post s pid).map (fun p => p.2.posts) =
      some (upd s.posts pid
        (some (if report_blind_threshold ≤ rp.reports + 1
               then { rp with reports := rp.reports + 1, status := "blinded" }
               else { rp with reports := rp.reports + 1 }))) := by
  by_cases hth : report_blind_threshold ≤ rp.reports + 1 <;>
    simp [report_post, REPORT_SCRIPT_run, hp, hth]

/-! ### Concrete states used by counterexamples and witnesses -/

/-- A post one recommendation short of the extension threshold. -/
def exPost99 : PostRec :=
  { content := "c", created_at_ts := 0, tags := [], views := 0,
    recommendations := 99, reports := 0, status := "active" }

/-- `exPost99` created at time 0 with the default TTL, observed at time 500:
its key deadline is 1100, so 500 seconds of lifetime remain at `now = 600`. -/
def exState99 : RedisState :=
  { emptyState with
    posts := upd emptyState.posts "p1" (some exPost99),
    expireAt := upd emptyState.expireAt "p1" (some 1100),
    active := upd emptyState.active "p1" (some 500),
    expiring := upd emptyState.expiring "p1" (some 1100),
    rankViews := upd emptyState.rankViews "p1" (some 0),
    rankRecs := upd emptyState.rankRecs "p1" (some 99) }

/-- A blinded post with 5 recommendations. -/
def exPostBlinded : PostRec :=
  { content := "c", created_at_ts := 0, tags := [], views := 3,
    recommendations := 5, reports := 50, status := "blinded" }

/-- Keyspace holding only `exPostBlinded`. -/
def exStateBlinded : RedisState :=
  { emptyState with
    posts := upd emptyState.posts "p1" (some exPostBlinded),
    expireAt := upd emptyState.expireAt "p1" (some 600) }

/-- `exPost99` created at time 0, with the expiring-index entry still at the
original deadline 600, observed right away (`now = 0`). -/
def exState99Fresh : RedisState :=
  { emptyState with
    posts := upd emptyState.posts "p1" (some exPost99),
    expireAt := upd emptyState.expireAt "p1" (some 600),
    active := upd emptyState.active "p1" (some 0),
    expiring := upd emptyState.expiring "p1" (some 600),
    rankViews := upd emptyState.rankViews "p1" (some 0),
    rankRecs := upd emptyState.rankRecs "p1" (some 99) }

/-- A post with 49 reports, one short of the blind threshold. -/
def exPost49 : PostRec :=
  { content := "c", created_at_ts := 0, tags := [], views := 0,
    recommendations := 0, reports := 49, status := "active" }

/-- Keyspace holding only `exPost49`. -/
def exState49 : RedisState :=
  { emptyState with
    posts := upd emptyState.posts "p1" (some exPost49),
    expireAt := upd emptyState.expireAt "p1" (some 600) }

/-! ### C1 -/

/-- C1 counterexample: `exState99` holds an existing, non-blinded post whose
next recommendation (the 100th) is an exact multiple of the threshold and
whose remaining TTL (500 s) is positive, yet the call reports
`ttl_seconds = 800` — remaining TTL + extension — not the claimed
default + extension = 900. -/
theorem recommend_hundredth_ttl_counterexample :
    exState99.posts "p1" = some exPost99 ∧
    exPost99.status ≠ "blinded" ∧
    (exPost99.recommendations + 1) % recommendation_extension_threshold = 0 ∧
    ttlCmd exState99 "p1" 600 = 500 ∧
    runRecommend exState99 "p1" 600 =
      some (.ok { success := true, recommendations := 100, ttl_seconds := 800,
                  message := some extensionMessage }) ∧
    (800 : Int) ≠ (post_default_ttl : Int) + (recommendation_extension_ttl : Int) := by
  decide

/-- C1 (amended): for every existing, non-blinded post, a recommend call
increments `recommendations` by 1 and returns `success = true` with the new
count; the extension message is present exactly when the new count is a
multiple of the threshold, and the reported `ttl_seconds` is the remaining
TTL plus the extension in that case (the remaining TTL unchanged
otherwise). -/
theorem recommend_active_post_result_spec (s : RedisState) (post_id : String)
    (r : PostRec) (now : Nat) (h : s.posts post_id = some r)
    (hb : r.status ≠ "blinded") :
    ∃ res s', recommend_post s post_id now = some (.ok res, s') ∧
      res.success = true ∧
      res.recommendations = r.recommendations + 1 ∧
      (res.message.isSome = true ↔
        (r.recommendations + 1) % recommendation_extension_threshold = 0) ∧
      res.ttl_seconds = ttlCmd s post_id now +
        (if (r.recommendations + 1) % recommendation_extension_threshold = 0
         then (recommendation_extension_ttl : Int) else 0) ∧
      s'.posts post_id = some { r with recommendations := r.recommendations + 1 } := by
  have httl : ttlCmd { s with posts := upd s.posts post_id (some { r with recommendations := r.recommendations + 1 }) } post_id now = ttlCmd s post_id now := by
    refine ttlCmd_congr now ?_ rfl
    simp [h]
  simp only [recommend_post, RECOMMEND_SCRIPT_run, h, if_neg hb]
  refine ⟨_, _, rfl, rfl, rfl, ?_, ?_, ?_⟩
  · by_cases hm : (r.recommendations + 1) % recommendation_extension_threshold = 0 <;>
      simp [hm]
  · by_cases hm : (r.recommendations + 1) % recommendation_extension_threshold = 0 <;>
      simp [hm, httl]
  · split <;> simp

/-- Witness for `recommend_active_post_result_spec` at `exState99Fresh`. -/
theorem recommend_active_post_result_spec_witness :
    ∃ res s', recommend_post exState99Fresh "p1" 0 = some (.ok res, s') ∧
      res.success = true ∧
      res.recommendations = exPost99.recommendations + 1 ∧
      (res.message.isSome = true ↔
        (exPost99.recommendations + 1) % recommendation_extension_threshold = 0) ∧
      res.ttl_seconds = ttlCmd exState99Fresh "p1" 0 +
        (if (exPost99.recommendations + 1) % recommendation_extension_threshold = 0
         then (recommendation_extension_ttl : Int) else 0) ∧
      s'.posts "p1" = some { exPost99 with recommendations := exPost99.recommendations + 1 } :=
  recommend_active_post_result_spec exState99Fresh "p1" exPost99 0 (by decide) (by decide)

/-! ### C2 -/

/-- C2: recommending the existing blinded post `"p1"` is not the defined
`success = false` outcome the claim describes: the Lua script replies with a
two-element table, the three-way unpacking in `recommend_post` raises
`ValueError`, and the endpoint turns it into a 500 server error.  No
increment of `recommendations` happens (the count stays 5). -/
theorem blinded_recommend_value_error_bug :
    exStateBlinded.posts "p1" = some exPostBlinded ∧
    exPostBlinded.status = "blinded" ∧
    runRecommend exStateBlinded "p1" 100 = some .valueError ∧
    (recommend_post_endpoint exStateBlinded "p1" 100).1 = ApiResult.serverError ∧
    ((recommend_post_endpoint exStateBlinded "p1" 100).2.posts "p1").map
      PostRec.recommendations = some 5 := by
  decide

/-! ### C3 -/

/-- C3: every report call on an existing post increments `reports` by 1; the
script's blinded flag is true exactly when the new count reaches the blind
threshold, `status = blinded` is set in the same atomic script in that case,
an already-blinded post keeps accruing reports while staying blinded, and
`report_post` returns `success = true` with the new count and the
corresponding message. -/
theorem report_blind_threshold_spec (s : RedisState) (post_id : String)
    (r : PostRec) (h : s.posts post_id = some r) :
    ∃ b s', REPORT_SCRIPT_run s post_id = some ((r.reports + 1, b), s') ∧
      (b = true ↔ report_blind_threshold ≤ r.reports + 1) ∧
      s'.posts post_id = some { r with reports := r.reports + 1, status := if report_blind_threshold ≤ r.reports + 1 then "blinded" else r.status } ∧
      (r.status = "blinded" → ∃ r', s'.posts post_id = some r' ∧
        r'.status = "blinded" ∧ r'.reports = r.reports + 1) ∧
      report_post s post_id = some ({ success := true, reports := r.reports + 1, message := if b then blindedMessage else reportedMessage }, s') := by
  by_cases hth : report_blind_threshold ≤ r.reports + 1
  · refine ⟨true, { s with posts := upd s.posts post_id (some { r with reports := r.reports + 1, status := "blinded" }) }, ?_, ?_, ?_, ?_, ?_⟩
    · simp [REPORT_SCRIPT_run, h, hth]
    · simp [hth]
    · simp [hth]
    · intro hb
      exact ⟨{ r with reports := r.reports + 1, status := "blinded" }, by simp, rfl, rfl⟩
    · simp [report_post, REPORT_SCRIPT_run, h, hth]
  · refine ⟨false, { s with posts := upd s.posts post_id (some { r with reports := r.reports + 1 }) }, ?_, ?_, ?_, ?_, ?_⟩
    · simp [REPORT_SCRIPT_run, h, hth]
    · simp [hth]
    · simp [hth]
    · intro hb
      exact ⟨{ r with reports := r.reports + 1 }, by simp, hb, rfl⟩
    · simp [report_post, REPORT_SCRIPT_run, h, hth]

/-- Witness for `report_blind_threshold_spec`: the 50th report on `exPost49`
blinds it. -/
theorem report_blind_threshold_spec_witness :
    ∃ b s', REPORT_SCRIPT_run exState49 "p1" = some ((exPost49.reports + 1, b), s') ∧
      (b = true ↔ report_blind_threshold ≤ exPost49.reports + 1) ∧
      s'.posts "p1" = some { exPost49 with reports := exPost49.reports + 1, status := if report_blind_threshold ≤ exPost49.reports + 1 then "blinded" else exPost49.status } ∧
      (exPost49.status = "blinded" → ∃ r', s'.posts "p1" = some r' ∧
        r'.status = "blinded" ∧ r'.reports = exPost49.reports + 1) ∧
      report_post exState49 "p1" = some ({ success := true, reports := exPost49.reports + 1, message := if b then blindedMessage else reportedMessage }, s') :=
  report_blind_threshold_spec exState49 "p1" exPost49 (by decide)

/-! ### C4 -/

/-- C4: creating post `"p1"` on the empty keyspace returns the full snapshot
(zero counters, active status, default TTL) as if creation had succeeded,
yet the store afterwards holds no primary record, no TTL, and no active or
expiring entry — the transactional pipeline carrying those writes is never
awaited — while the two stand-alone ranking ZADDs did execute; a subsequent
GET of the freshly "created" post answers 404 (the repository's own tests
expect it to succeed). -/
theorem create_post_never_writes_primary_bug :
    (create_post emptyState "p1" "hello" [] 0).1 =
      { id := "p1", content := "hello", created_at_ts := 0,
        ttl_seconds := post_default_ttl, tags := [], views := 0,
        recommendations := 0, reports := 0, status := "active" } ∧
    (create_post emptyState "p1" "hello" [] 0).2.posts "p1" = none ∧
    (create_post emptyState "p1" "hello" [] 0).2.expireAt "p1" = none ∧
    (create_post emptyState "p1" "hello" [] 0).2.active "p1" = none ∧
    (create_post emptyState "p1" "hello" [] 0).2.expiring "p1" = none ∧
    (create_post emptyState "p1" "hello" [] 0).2.rankViews "p1" = some 0 ∧
    (create_post emptyState "p1" "hello" [] 0).2.rankRecs "p1" = some 0 ∧
    (get_post_endpoint (create_post emptyState "p1" "hello" [] 0).2 "p1" 0).1 =
      ApiResult.notFound := by
  decide

/-! ### C5 -/

/-- A post whose `posts:rank:views` score (7) is in lockstep with its stored
`views` counter (7), together with entries in all four indexes. -/
def exPostViews : PostRec :=
  { content := "c", created_at_ts := 0, tags := [], views := 7,
    recommendations := 2, reports := 0, status := "active" }

/-- Keyspace holding `exPostViews` with all four index entries present and
both ranking scores equal to their counters. -/
def exStateViews : RedisState :=
  { emptyState with
    posts := upd emptyState.posts "p1" (some exPostViews),
    expireAt := upd emptyState.expireAt "p1" (some 600),
    active := upd emptyState.active "p1" (some 0),
    expiring := upd emptyState.expiring "p1" (some 600),
    rankViews := upd emptyState.rankViews "p1" (some 7),
    rankRecs := upd emptyState.rankRecs "p1" (some 2) }

/-- C5: starting from a store where the rank-views score equals the stored
`views` counter (both 7), one get leaves the counter at 8 but the
`posts:rank:views` score at 7 — `get_post` overwrites the freshly ZINCRBYed
score with the `views` value it read before the increment, so after the
mutation the ranking score no longer equals the counter even though the id
stays in the active index (the repository's own test expects `views == 1` to
be visible after one get of a fresh post). -/
theorem get_post_rank_views_stale_bug :
    exStateViews.rankViews "p1" = some 7 ∧
    (exStateViews.posts "p1").map PostRec.views = some 7 ∧
    ((get_post exStateViews "p1" 0).2.posts "p1").map PostRec.views = some 8 ∧
    (get_post exStateViews "p1" 0).2.rankViews "p1" = some 7 ∧
    (get_post exStateViews "p1" 0).2.active "p1" = some 0 := by
  decide

/-! ### C6 -/

/-- C6: the 100th recommendation of `exPost99` (fresh post, deadline 600,
`now = 0`) extends the key's TTL — the expiry deadline moves to 900 — but the
`posts:expiring` score is left at 600, so the extension does not update the
expiring index in the same operation as the claim states. -/
theorem recommend_extension_expiring_stale_bug :
    exState99Fresh.expiring "p1" = some 600 ∧
    (recommend_post exState99Fresh "p1" 0).map
      (fun p => (p.2.expireAt "p1", p.2.expiring "p1")) = some (some 900, some 600) ∧
    runRecommend exState99Fresh "p1" 0 =
      some (.ok { success := true, recommendations := 100, ttl_seconds := 900,
                  message := some extensionMessage }) := by
  decide

/-! ### C7 -/

/-- A keyspace with one overdue entry (`"p1"`, score 50) and one future
entry (`"p2"`, score 200) in `posts:expiring`, all four indexes populated. -/
def exSweepState : RedisState :=
  { emptyState with
    expiring := upd (upd emptyState.expiring "p1" (some 50)) "p2" (some 200),
    active := upd (upd emptyState.active "p1" (some 10)) "p2" (some 20),
    rankViews := upd (upd emptyState.rankViews "p1" (some 1)) "p2" (some 2),
    rankRecs := upd (upd emptyState.rankRecs "p1" (some 3)) "p2" (some 4) }

/-- C7: at `now = 100`, `"p1"` is an overdue sweep candidate (expiring score
50 ≤ 100), yet one run of `cleanup_expired_indexes` leaves the store exactly
as it was — the queued ZREM pipeline is never awaited — so the overdue id
remains in all four indexes, contrary to the claim that no such id survives
a sweep (and to the function's own docstring and success log). -/
theorem cleanup_sweep_never_removes_bug :
    sweepCandidate exSweepState 100 "p1" = true ∧
    cleanup_expired_indexes exSweepState 100 = exSweepState ∧
    (cleanup_expired_indexes exSweepState 100).active "p1" = some 10 ∧
    (cleanup_expired_indexes exSweepState 100).expiring "p1" = some 50 ∧
    (cleanup_expired_indexes exSweepState 100).rankViews "p1" = some 1 ∧
    (cleanup_expired_indexes exSweepState 100).rankRecs "p1" = some 3 :=
  ⟨by decide, rfl, by decide, by decide, by decide, by decide⟩

/-! ### More frame lemmas, for the endpoint-level theorems -/

theorem upd_upd_same (f : String → Option α) (k : String) (v w : Option α) :
    upd (upd f k v) k w = upd f k w := by
  funext x
  by_cases hx : x = k <;> simp [upd, hx]

theorem get_post_present_fst_isSome {s : RedisState} {pid : String} {rp : PostRec}
    (now : Nat) (hp : s.posts pid = some rp) :
    ((get_post s pid now).1).isSome = true := by
  simp [get_post, hp]

theorem recommend_endpoint_absent {s : RedisState} {pid : String} (now : Nat)
    (hp : s.posts pid = none) :
    recommend_post_endpoint s pid now = (.notFound, s) := by
  simp [recommend_post_endpoint, get_post_absent now hp]

theorem report_endpoint_absent {s : RedisState} {pid : String} (now : Nat)
    (hp : s.posts pid = none) :
    report_post_endpoint s pid now = (.notFound, s) := by
  simp [report_post_endpoint, get_post_absent now hp]

theorem recommend_endpoint_present_posts {s : RedisState} {pid : String} {rp : PostRec}
    (now : Nat) (hp : s.posts pid = some rp) :
    (recommend_post_endpoint s pid now).2.posts =
      upd s.posts pid (some (if rp.status = "blinded"
        then { rp with views := rp.views + 1 }
        else { rp with views := rp.views + 1, recommendations := rp.recommendations + 1 })) := by
  have hs1 : (get_post s pid now).2.posts =
      upd s.posts pid (some { rp with views := rp.views + 1 }) :=
    get_post_present_posts now hp
  have hp1 : (get_post s pid now).2.posts pid = some { rp with views := rp.views + 1 } := by
    rw [hs1]
    simp
  have hsome := get_post_present_fst_isSome now hp
  have hrec := recommend_post_present_posts now hp1
  unfold recommend_post_endpoint
  cases hg : get_post s pid now with
  | mk fst snd =>
    rw [hg] at hsome hrec hs1
    simp only at hsome hrec hs1
    obtain ⟨snap, hsnap⟩ := Option.isSome_iff_exists.mp hsome
    subst hsnap
    rcases hout : recommend_post snd pid now with _ | ⟨out, s2⟩
    · rw [hout] at hrec
      simp at hrec
    · rw [hout] at hrec
      simp only [Option.map_some'] at hrec
      have hs2 : s2.posts = if ({ rp with views := rp.views + 1 } : PostRec).status = "blinded" then snd.posts else upd snd.posts pid (some { rp with views := rp.views + 1, recommendations := rp.recommendations + 1 }) :=
        Option.some_inj.mp hrec
      by_cases hb : rp.status = "blinded"
      · have hbl : ({ rp with views := rp.views + 1 } : PostRec).status = "blinded" := hb
        rw [if_pos hbl] at hs2
        cases out <;> simp [hout, hs2, hs1, hb]
      · have hbl : ¬ ({ rp with views := rp.views + 1 } : PostRec).status = "blinded" := hb
        rw [if_neg hbl] at hs2
        cases out <;> simp [hout, hs2, hs1, hb, upd_upd_same]

theorem report_endpoint_present_posts {s : RedisState} {pid : String} {rp : PostRec}
    (now : Nat) (hp : s.posts pid = some rp) :
    (report_post_endpoint s pid now).2.posts =
      upd s.posts pid (some (if report_blind_threshold ≤ rp.reports + 1
        then { rp with views := rp.views + 1, reports := rp.reports + 1, status := "blinded" }
        else { rp with views := rp.views + 1, reports := rp.reports + 1 })) := by
  have hs1 : (get_post s pid now).2.posts =
      upd s.posts pid (some { rp with views := rp.views + 1 }) :=
    get_post_present_posts now hp
  have hp1 : (get_post s pid now).2.posts pid = some { rp with views := rp.views + 1 } := by
    rw [hs1]
    simp
  have hsome := get_post_present_fst_isSome now hp
  have hrep := report_post_present_posts hp1
  unfold report_post_endpoint
  cases hg : get_post s pid now with
  | mk fst snd =>
    rw [hg] at hsome hrep hs1
    simp only at hsome hrep hs1
    obtain ⟨snap, hsnap⟩ := Option.isSome_iff_exists.mp hsome
    subst hsnap
    rcases hout : report_post snd pid with _ | ⟨res, s2⟩
    · rw [hout] at hrep
      simp at hrep
    · rw [hout] at hrep
      simp only [Option.map_some'] at hrep
      have hs2 := Option.some_inj.mp hrep
      by_cases hth : report_blind_threshold ≤ rp.reports + 1
      · rw [if_pos hth] at hs2 ⊢
        simp [hout, hs2, hs1, upd_upd_same]
      · rw [if_neg hth] at hs2 ⊢
        simp [hout, hs2, hs1, upd_upd_same]

/-! ### C8 -/

/-- C8: recommending or reporting an id that is absent from the store hits
the endpoints' existence check: both answer 404 not-found and return the
store exactly as it was — no record or index entry is created or mutated. -/
theorem absent_id_mutations_not_found (s : RedisState) (post_id : String) (now : Nat)
    (h : s.posts post_id = none) :
    recommend_post_endpoint s post_id now = (.notFound, s) ∧
    report_post_endpoint s post_id now = (.notFound, s) :=
  ⟨recommend_endpoint_absent now h, report_endpoint_absent now h⟩

/-- Witness for `absent_id_mutations_not_found` on the empty keyspace. -/
theorem absent_id_mutations_not_found_witness :
    recommend_post_endpoint emptyState "ghost" 7 = (.notFound, emptyState) ∧
    report_post_endpoint emptyState "ghost" 7 = (.notFound, emptyState) :=
  absent_id_mutations_not_found emptyState "ghost" 7 rfl

/-! ### C9 -/

/-- The view increment does not change key existence or expiry, so the TTL
reading taken after it equals the remaining TTL of the original state. -/
theorem increment_view_ttlCmd {s : RedisState} {pid : String} {rp : PostRec}
    (now : Nat) (hp : s.posts pid = some rp) :
    ttlCmd (_increment_view_atomic s pid) pid now = ttlCmd s pid now := by
  refine ttlCmd_congr now ?_ ?_ <;> simp [_increment_view_atomic, hp]

/-- C9: a `get` on a present id increments the stored `views` by exactly 1
and returns a snapshot whose `ttl_seconds` is `max 0 (remaining TTL)`; a
`get` on an absent id is a 404 leaving the store untouched; and no operation
of the system ever decreases a record's `views` counter. -/
theorem get_post_view_increment_spec (s : RedisState) (post_id : String) (now : Nat) :
    (∀ r, s.posts post_id = some r →
      ∃ snap s', get_post s post_id now = (some snap, s') ∧
        s'.posts post_id = some { r with views := r.views + 1 } ∧
        snap.ttl_seconds = (max 0 (ttlCmd s post_id now)).toNat) ∧
    (s.posts post_id = none → get_post_endpoint s post_id now = (.notFound, s)) ∧
    (∀ op, opFresh s op → ∀ id r, s.posts id = some r →
      ∃ r', (applyOp s now op).posts id = some r' ∧ r.views ≤ r'.views) := by
  refine ⟨?_, ?_, ?_⟩
  · intro r h
    have httl := increment_view_ttlCmd now h
    simp only [get_post, h]
    refine ⟨_, _, rfl, ?_, ?_⟩
    · simp [_increment_view_atomic, h]
    · simp [httl]
  · intro h
    simp [get_post_endpoint, get_post_absent now h]
  · intro op _hf id r h
    cases op with
    | createOp pid c tg =>
      exact ⟨r, h, le_refl _⟩
    | getOp pid =>
      simp only [applyOp]
      have hsnd : (get_post_endpoint s pid now).2 = (get_post s pid now).2 := by
        unfold get_post_endpoint
        cases hg : get_post s pid now with
        | mk f d => cases f <;> simp
      rw [hsnd]
      cases hp : s.posts pid with
      | none =>
        rw [get_post_absent now hp]
        exact ⟨r, h, le_refl _⟩
      | some rp =>
        rw [get_post_present_posts now hp]
        by_cases hip : id = pid
        · subst hip
          have hrr : rp = r := by
            rw [h] at hp
            exact (Option.some_inj.mp hp).symm
          subst hrr
          exact ⟨{ rp with views := rp.views + 1 }, by simp, Nat.le_succ _⟩
        · exact ⟨r, by simp [upd, hip, h], le_refl _⟩
    | recommendOp pid =>
      simp only [applyOp]
      cases hp : s.posts pid with
      | none =>
        rw [recommend_endpoint_absent now hp]
        exact ⟨r, h, le_refl _⟩
      | some rp =>
        rw [recommend_endpoint_present_posts now hp]
        by_cases hip : id = pid
        · subst hip
          have hrr : rp = r := by
            rw [h] at hp
            exact (Option.some_inj.mp hp).symm
          subst hrr
          refine ⟨if rp.status = "blinded" then { rp with views := rp.views + 1 } else { rp with views := rp.views + 1, recommendations := rp.recommendations + 1 }, by simp, ?_⟩
          by_cases hb : rp.status = "blinded" <;> simp [hb]
        · exact ⟨r, by simp [upd, hip, h], le_refl _⟩
    | reportOp pid =>
      simp only [applyOp]
      cases hp : s.posts pid with
      | none =>
        rw [report_endpoint_absent now hp]
        exact ⟨r, h, le_refl _⟩
      | some rp =>
        rw [report_endpoint_present_posts now hp]
        by_cases hip : id = pid
        · subst hip
          have hrr : rp = r := by
            rw [h] at hp
            exact (Option.some_inj.mp hp).symm
          subst hrr
          refine ⟨if report_blind_threshold ≤ rp.reports + 1 then { rp with views := rp.views + 1, reports := rp.reports + 1, status := "blinded" } else { rp with views := rp.views + 1, reports := rp.reports + 1 }, by simp, ?_⟩
          by_cases hth : report_blind_threshold ≤ rp.reports + 1 <;>
            simp [hth]
        · exact ⟨r, by simp [upd, hip, h], le_refl _⟩
    | sweepOp =>
      exact ⟨r, h, le_refl _⟩

/-- Witness for `get_post_view_increment_spec`: one get on `exPost49`
increments its views, a get on an absent id 404s the empty keyspace
unchanged, and a get operation leaves views non-decreasing. -/
theorem get_post_view_increment_spec_witness :
    (∃ snap s', get_post exState49 "p1" 0 = (some snap, s') ∧
      s'.posts "p1" = some { exPost49 with views := exPost49.views + 1 } ∧
      snap.ttl_seconds = (max 0 (ttlCmd exState49 "p1" 0)).toNat) ∧
    get_post_endpoint emptyState "ghost" 0 = (.notFound, emptyState) ∧
    (∃ r', (applyOp exState49 0 (.getOp "p1")).posts "p1" = some r' ∧
      exPost49.views ≤ r'.views) :=
  ⟨(get_post_view_increment_spec exState49 "p1" 0).1 exPost49 (by decide),
   (get_post_view_increment_spec emptyState "ghost" 0).2.1 rfl,
   (get_post_view_increment_spec exState49 "p1" 0).2.2 (.getOp "p1") trivial
     "p1" exPost49 (by decide)⟩

/-! ### C10 -/

theorem recommend_post_rankViews_frame {s : RedisState} {pid : String} {rp : PostRec}
    (now : Nat) (hp : s.posts pid = some rp) :
    (recommend_post s pid now).map (fun p => p.2.rankViews) = some s.rankViews := by
  by_cases hb : rp.status = "blinded"
  · simp [recommend_post, RECOMMEND_SCRIPT_run, hp, hb]
  · simp only [recommend_post, RECOMMEND_SCRIPT_run, hp, if_neg hb]
    split <;> split <;> simp

theorem report_post_rankViews_frame {s : RedisState} {pid : String} {rp : PostRec}
    (hp : s.posts pid = some rp) :
    (report_post s pid).map (fun p => p.2.rankViews) = some s.rankViews := by
  by_cases hth : report_blind_threshold ≤ rp.reports + 1 <;>
    simp [report_post, REPORT_SCRIPT_run, hp, hth]

theorem recommend_endpoint_present_rankViews {s : RedisState} {pid : String}
    {rp : PostRec} (now : Nat) (hp : s.posts pid = some rp) :
    (recommend_post_endpoint s pid now).2.rankViews = (get_post s pid now).2.rankViews := by
  have hp1 : (get_post s pid now).2.posts pid = some { rp with views := rp.views + 1 } := by
    rw [get_post_present_posts now hp]
    simp
  have hsome := get_post_present_fst_isSome now hp
  have hfr := recommend_post_rankViews_frame now hp1
  unfold recommend_post_endpoint
  cases hg : get_post s pid now with
  | mk fst snd =>
    rw [hg] at hsome hfr
    simp only at hsome hfr
    obtain ⟨snap, hsnap⟩ := Option.isSome_iff_exists.mp hsome
    subst hsnap
    rcases hout : recommend_post snd pid now with _ | ⟨out, s2⟩
    · rw [hout] at hfr
      simp at hfr
    · rw [hout] at hfr
      simp only [Option.map_some'] at hfr
      have h2 := Option.some_inj.mp hfr
      cases out <;> simp [hout, h2]

theorem report_endpoint_present_rankViews {s : RedisState} {pid : String}
    {rp : PostRec} (now : Nat) (hp : s.posts pid = some rp) :
    (report_post_endpoint s pid now).2.rankViews = (get_post s pid now).2.rankViews := by
  have hp1 : (get_post s pid now).2.posts pid = some { rp with views := rp.views + 1 } := by
    rw [get_post_present_posts now hp]
    simp
  have hsome := get_post_present_fst_isSome now hp
  have hfr := report_post_rankViews_frame hp1
  unfold report_post_endpoint
  cases hg : get_post s pid now with
  | mk fst snd =>
    rw [hg] at hsome hfr
    simp only at hsome hfr
    obtain ⟨snap, hsnap⟩ := Option.isSome_iff_exists.mp hsome
    subst hsnap
    rcases hout : report_post snd pid with _ | ⟨res, s2⟩
    · rw [hout] at hfr
      simp at hfr
    · rw [hout] at hfr
      simp only [Option.map_some'] at hfr
      have h2 := Option.some_inj.mp hfr
      simp [hout, h2]

/-- C10: the recommend and report endpoints run the full `get_post` read
path as their existence check, so a call on an existing post also increments
that post's stored `views` by 1 (whatever the requested mutation does), and
the `posts:rank:views` member ends up exactly as the shared get read path
leaves it. -/
theorem endpoints_share_get_read_path (s : RedisState) (post_id : String)
    (r : PostRec) (now : Nat) (h : s.posts post_id = some r) :
    ((recommend_post_endpoint s post_id now).2.posts post_id).map PostRec.views =
      some (r.views + 1) ∧
    ((report_post_endpoint s post_id now).2.posts post_id).map PostRec.views =
      some (r.views + 1) ∧
    (recommend_post_endpoint s post_id now).2.rankViews =
      (get_post s post_id now).2.rankViews ∧
    (report_post_endpoint s post_id now).2.rankViews =
      (get_post s post_id now).2.rankViews := by
  refine ⟨?_, ?_, recommend_endpoint_present_rankViews now h,
    report_endpoint_present_rankViews now h⟩
  · rw [recommend_endpoint_present_posts now h]
    by_cases hb : r.status = "blinded" <;> simp [hb]
  · rw [report_endpoint_present_posts now h]
    by_cases hth : report_blind_threshold ≤ r.reports + 1 <;> simp [hth]

/-- Witness for `endpoints_share_get_read_path` on `exPost49`. -/
theorem endpoints_share_get_read_path_witness :
    ((recommend_post_endpoint exState49 "p1" 3).2.posts "p1").map PostRec.views =
      some (exPost49.views + 1) ∧
    ((report_post_endpoint exState49 "p1" 3).2.posts "p1").map PostRec.views =
      some (exPost49.views + 1) ∧
    (recommend_post_endpoint exState49 "p1" 3).2.rankViews =
      (get_post exState49 "p1" 3).2.rankViews ∧
    (report_post_endpoint exState49 "p1" 3).2.rankViews =
      (get_post exState49 "p1" 3).2.rankViews :=
  endpoints_share_get_read_path exState49 "p1" exPost49 3 (by decide)

end BambooForest
